import Mathlib

/-!
# kakeibo_03: the session gate and the expense CRUD handlers of `server.js`

A shallow embedding of the route handlers of `src/server.js` and of the parts of
their platform that decide what the handlers do:

* the values a parsed request body can carry (`JsVal`) with the JavaScript
  coercions the handlers apply to them (`!v`, `v <= 0`, `parseInt(v)`, `v || ''`);
* the `expenses` and `users` tables with the statements the handlers run
  (`INSERT`, `UPDATE`, `DELETE`, `SELECT ... ORDER BY`, `LIKE`);
* the session object and the `requireAuth` middleware;
* the login rate limiter configured at `loginLimiter`.

Scope of the embedding.  A handler is modelled from the point where Express calls
the route's middleware chain, with the body and the query already parsed and the
session already loaded.  Application-level middleware in front of every route
(`helmet`, the global `limiter`, the body parsers, static files) and I/O failures
of the database driver are not modelled.  Body fields are absent, `null`,
booleans, integers or strings (JSON numbers are modelled where they are integers,
arrays and objects are not modelled); query parameters are absent or strings; the
route parameter `id` is a string.  Numeric text is evaluated digit by digit: the
rounding of doubles on very long digit strings is not modelled.  The clock is an
input of the handlers that read it.
-/

namespace Kakeibo

/-! ## JavaScript values and coercions -/

/-- The values of a field of a parsed request body (`undefined` is an absent field). -/
inductive JsVal where
  | undefined : JsVal
  | null : JsVal
  | bool (b : Bool) : JsVal
  | num (n : Int) : JsVal
  | str (s : String) : JsVal
  deriving DecidableEq, Repr

/-- JavaScript `ToBoolean`: `!v` is `!(truthy v)`. -/
def JsVal.truthy : JsVal → Bool
  | .undefined => false
  | .null => false
  | .bool b => b
  | .num n => n != 0
  | .str s => s != ""

/-- The operator `v || ''` used for the optional fields. -/
def JsVal.orEmpty (v : JsVal) : JsVal :=
  if v.truthy then v else .str ""

/-- JavaScript `ToString` on the modelled values. -/
def JsVal.toJsString : JsVal → String
  | .undefined => "undefined"
  | .null => "null"
  | .bool true => "true"
  | .bool false => "false"
  | .num n => toString n
  | .str s => s

/-- The code points JavaScript treats as white space or line terminators when it
trims a string (`StrWhiteSpaceChar`). -/
def isJsSpace (c : Char) : Bool :=
  let n := c.toNat
  n == 0x09 || n == 0x0A || n == 0x0B || n == 0x0C || n == 0x0D || n == 0x20 ||
  n == 0xA0 || n == 0x1680 || (0x2000 ≤ n && n ≤ 0x200A) || n == 0x2028 || n == 0x2029 ||
  n == 0x202F || n == 0x205F || n == 0x3000 || n == 0xFEFF

/-- Value of a character as a digit in the given radix (at most 36), if it is one. -/
def digitVal (radix : Nat) (c : Char) : Option Nat :=
  let n := c.toNat
  let v :=
    if 48 ≤ n ∧ n ≤ 57 then some (n - 48)
    else if 97 ≤ n ∧ n ≤ 122 then some (n - 87)
    else if 65 ≤ n ∧ n ≤ 90 then some (n - 55)
    else none
  match v with
  | some d => if d < radix then some d else none
  | none => none

/-- Reads the longest prefix of digits in the radix, left to right: the value
accumulated so far, the number of digits read, and the rest of the input. -/
def readDigits (radix : Nat) : List Char → Nat → Nat → Nat × Nat × List Char
  | [], acc, k => (acc, k, [])
  | c :: cs, acc, k =>
    match digitVal radix c with
    | some d => readDigits radix cs (acc * radix + d) (k + 1)
    | none => (acc, k, c :: cs)

/-- Splits an optional leading sign off: `true` when the sign is `-`. -/
def readSign : List Char → Bool × List Char
  | '-' :: cs => (true, cs)
  | '+' :: cs => (false, cs)
  | cs => (false, cs)

/-- JavaScript `parseInt(s)` without a radix on a string: leading white space is
skipped, a sign is read, a `0x`/`0X` prefix selects radix 16, and the longest
prefix of digits is the value; `none` is `NaN` (no digit at all). -/
def parseIntChars (cs : List Char) : Option Int :=
  let (neg, r) := readSign (cs.dropWhile isJsSpace)
  let (radix, r) :=
    match r with
    | '0' :: 'x' :: t => (16, t)
    | '0' :: 'X' :: t => (16, t)
    | t => (10, t)
  let (v, k, _) := readDigits radix r 0 0
  if k = 0 then none else some (if neg then - (v : Int) else (v : Int))

/-- JavaScript `parseInt(v)`: the argument is converted with `ToString` first. -/
def jsParseInt (v : JsVal) : Option Int :=
  parseIntChars v.toJsString.data

/-- What `x <= 0` needs to know of a JavaScript number. -/
inductive NumClass where
  | nan : NumClass
  | neg : NumClass
  | zero : NumClass
  | pos : NumClass
  deriving DecidableEq, Repr

/-- Class of the number with the given sign and magnitude. -/
def NumClass.ofMag (neg : Bool) (m : Nat) : NumClass :=
  if m = 0 then .zero else if neg then .neg else .pos

/-- An optional exponent part `e[+-]digits` followed by nothing else. -/
def validExponent : List Char → Bool
  | [] => true
  | c :: cs =>
    if c = 'e' ∨ c = 'E' then
      let (_, r) := readSign cs
      let (_, k, rest) := readDigits 10 r 0 0
      decide (0 < k) && rest.isEmpty
    else false

/-- An unsigned `StrDecimalLiteral` without `Infinity`: `digits[.digits][exp]` or
`.digits[exp]`; the result is the class of its mantissa (zero or positive). -/
def decimalClass (neg : Bool) (cs : List Char) : NumClass :=
  let (i, ki, r) := readDigits 10 cs 0 0
  match r with
  | '.' :: r2 =>
    let (f, kf, r3) := readDigits 10 r2 0 0
    if ki + kf = 0 then .nan
    else if validExponent r3 then NumClass.ofMag neg (i + f) else .nan
  | r2 =>
    if ki = 0 then .nan
    else if validExponent r2 then NumClass.ofMag neg i else .nan

/-- A `0x`/`0o`/`0b` literal body: at least one digit of the radix and nothing else. -/
def radixClass (radix : Nat) (cs : List Char) : NumClass :=
  let (v, k, rest) := readDigits radix cs 0 0
  if k = 0 ∨ ¬ rest = [] then .nan else NumClass.ofMag false v

/-- JavaScript `StringToNumber`, as far as `<= 0` observes it: white space is
trimmed at both ends, the empty string is `0`, then a signed decimal literal or
`Infinity`, or an unsigned hexadecimal, octal or binary literal; anything else is
`NaN`.  (A literal is classified by its digits: underflow to zero of literals
below the smallest double is not modelled.) -/
def strNumClass (s : String) : NumClass :=
  let t := ((s.data.dropWhile isJsSpace).reverse.dropWhile isJsSpace).reverse
  match t with
  | [] => .zero
  | '0' :: 'x' :: r => radixClass 16 r
  | '0' :: 'X' :: r => radixClass 16 r
  | '0' :: 'o' :: r => radixClass 8 r
  | '0' :: 'O' :: r => radixClass 8 r
  | '0' :: 'b' :: r => radixClass 2 r
  | '0' :: 'B' :: r => radixClass 2 r
  | _ =>
    let (neg, r) := readSign t
    if r = "Infinity".data then (if neg then .neg else .pos)
    else decimalClass neg r

/-- JavaScript `ToNumber`, as far as `<= 0` observes it. -/
def JsVal.numClass : JsVal → NumClass
  | .undefined => .nan
  | .null => .zero
  | .bool true => .pos
  | .bool false => .zero
  | .num n => if n < 0 then .neg else if n = 0 then .zero else .pos
  | .str s => strNumClass s

/-- The comparison `v <= 0`: false when `v` converts to `NaN`. -/
def JsVal.leZero (v : JsVal) : Bool :=
  match v.numClass with
  | .neg => true
  | .zero => true
  | _ => false

/-! ## The SQLite side: bound parameters, `LIKE`, the tables -/

/-- The text a `TEXT` column stores for a bound JavaScript value (node-sqlite3 binds
a string as text, a number in the 32-bit range as an integer and any other number
as a double, a boolean as `1`/`0`, and `null`/`undefined` as `NULL`, here `none`;
the column affinity then renders a number as text, a double of up to 15 digits
with a trailing `.0`). -/
def bindText : JsVal → Option String
  | .undefined => none
  | .null => none
  | .bool b => some (if b then "1" else "0")
  | .num n =>
    if -2147483648 ≤ n ∧ n ≤ 2147483647 then some (toString n)
    else some (toString n ++ ".0")
  | .str s => some s

/-- White space that SQLite skips around numeric text. -/
def isSqlSpace (c : Char) : Bool :=
  let n := c.toNat
  n == 0x20 || n == 0x09 || n == 0x0A || n == 0x0B || n == 0x0C || n == 0x0D

/-- The optional exponent of numeric text: `none` when malformed, otherwise the
signed exponent (0 when there is no exponent part) and whether one was present. -/
def sqlExponent : List Char → Option (Int × Bool)
  | [] => some (0, false)
  | c :: cs =>
    if c = 'e' ∨ c = 'E' then
      let (neg, r) := readSign cs
      let (e, k, rest) := readDigits 10 r 0 0
      if k = 0 ∨ ¬ rest = [] then none
      else some (if neg then - (e : Int) else (e : Int), true)
    else none

/-- The integer that numeric affinity gives to a text parameter compared with an
`INTEGER PRIMARY KEY` column: the text must be a well-formed integer or real
literal, surrounded by white space at most, whose value is an integer in the
64-bit range (`'5'`, `' 5'`, `'5.0'` and `'50e-1'` all denote 5); `none` when the
text denotes no such integer, in which case it equals no row id. -/
def sqlTextToInt (s : String) : Option Int :=
  let t := ((s.data.dropWhile isSqlSpace).reverse.dropWhile isSqlSpace).reverse
  let (neg, r0) := readSign t
  let (i, ki, r1) := readDigits 10 r0 0 0
  let (m, kf, r2, dot) :=
    match r1 with
    | '.' :: r => let (m, kf, r2) := readDigits 10 r i 0; (m, kf, r2, true)
    | r => (i, 0, r, false)
  if ki + kf = 0 then none
  else
    match sqlExponent r2 with
    | none => none
    | some (e, hasExp) =>
      let sgn : Int := if neg then -1 else 1
      let sc : Int := e - (kf : Int)
      let v : Option Int :=
        if 0 ≤ sc then some (sgn * ((m : Int) * 10 ^ sc.toNat))
        else if (10 : Int) ^ (-sc).toNat ∣ (m : Int) then some (sgn * ((m : Int) / 10 ^ (-sc).toNat))
        else none
      match v with
      | none => none
      | some x =>
        if dot ∨ hasExp then
          (if -9223372036854775808 < x ∧ x < 9223372036854775807 then some x else none)
        else
          (if -9223372036854775808 ≤ x ∧ x ≤ 9223372036854775807 then some x else none)

/-- The comparison `id = ?` with a text parameter. -/
def idMatches (param : String) (id : Int) : Bool :=
  sqlTextToInt param == some id

/-- ASCII lower-casing, the case folding of SQLite's built-in `LIKE`. -/
def asciiLower (c : Char) : Char :=
  if 65 ≤ c.toNat ∧ c.toNat ≤ 90 then Char.ofNat (c.toNat + 32) else c

/-- SQLite's built-in `LIKE` without an escape character: `%` matches any run of
characters, `_` matches one character, any other character matches itself up to
ASCII case. The first argument is the pattern. -/
def likeMatch : List Char → List Char → Bool
  | [], s => s.isEmpty
  | c :: p, s =>
    if c = '%' then s.tails.any (fun t => likeMatch p t)
    else
      match s with
      | [] => false
      | d :: s' => (c = '_' || asciiLower c == asciiLower d) && likeMatch p s'

/-- A character that stands for itself alone in a `LIKE` pattern: not a wildcard
and not an ASCII letter. -/
def likeLiteral (c : Char) : Bool :=
  c != '%' && c != '_' && !(decide (65 ≤ c.toNat) && decide (c.toNat ≤ 90)) &&
    !(decide (97 ≤ c.toNat) && decide (c.toNat ≤ 122))

/-- A row of the table `expenses`. -/
structure Expense where
  id : Int
  date : String
  category : String
  item_name : Option String
  store : Option String
  amount : Int
  created_at : String
  updated_at : String
  deriving DecidableEq, Repr

/-- A row of the table `users`. -/
structure User where
  id : Int
  username : String
  password_hash : String
  deriving DecidableEq, Repr

/-- The database file: both tables, the rows of `expenses` in table order, and the
`sqlite_sequence` entry that `AUTOINCREMENT` keeps for `expenses`. -/
structure Db where
  users : List User
  expenses : List Expense
  seq : Int
  deriving DecidableEq, Repr

/-- Why a statement failed. -/
inductive SqlError where
  | notNull : SqlError
  | full : SqlError
  deriving DecidableEq, Repr

/-- The largest row id of the table, if it has a row. -/
def maxRowid : List Expense → Option Int
  | [] => none
  | r :: rs =>
    match maxRowid rs with
    | none => some r.id
    | some m => some (max r.id m)

/-- The largest 64-bit row id. -/
def maxInt64 : Int := 9223372036854775807

/-- The row id `AUTOINCREMENT` assigns: one more than the largest row id in the
table (1 for an empty table), raised to one more than the recorded sequence
value; the statement fails when the largest possible id has been used. -/
def nextRowid (db : Db) : Except SqlError Int :=
  let full := db.seq == maxInt64 ||
    (match maxRowid db.expenses with
     | none => false
     | some m => decide (maxInt64 ≤ m))
  if full then .error .full
  else
    let v := match maxRowid db.expenses with
      | none => 1
      | some m => m + 1
    .ok (max v (db.seq + 1))

/-- The statement
`INSERT INTO expenses (date, category, item_name, store, amount) VALUES (?, ?, ?, ?, ?)`
run at the time `now`: returns `lastID` and the new database. -/
def Db.insertExpense (db : Db) (now : String) (date category item store : Option String)
    (amount : Option Int) : Except SqlError (Int × Db) :=
  match nextRowid db with
  | .error e => .error e
  | .ok newId =>
    match date, category, amount with
    | some d, some c, some a =>
      .ok (newId,
        { db with
          expenses := db.expenses ++
            [{ id := newId, date := d, category := c, item_name := item, store := store,
               amount := a, created_at := now, updated_at := now }],
          seq := newId })
    | _, _, _ => .error .notNull

/-- The row an update statement writes in place of a matching row. -/
def rewriteRow (now : String) (d c : String) (item store : Option String) (a : Int)
    (id : String) (r : Expense) : Expense :=
  if idMatches id r.id then
    { r with date := d, category := c, item_name := item, store := store,
             amount := a, updated_at := now }
  else r

/-- The statement
`UPDATE expenses SET date = ?, category = ?, item_name = ?, store = ?, amount = ?,
updated_at = CURRENT_TIMESTAMP WHERE id = ?` run at the time `now`: returns
`changes` and the new database. A `NULL` for a `NOT NULL` column fails the
statement only when a row is to be updated. -/
def Db.updateExpense (db : Db) (now : String) (date category item store : Option String)
    (amount : Option Int) (id : String) : Except SqlError (Nat × Db) :=
  let n := db.expenses.countP (fun r => idMatches id r.id)
  if n = 0 then .ok (0, db)
  else
    match date, category, amount with
    | some d, some c, some a =>
      .ok (n,
        { db with
          expenses := db.expenses.map (rewriteRow now d c item store a id) })
    | _, _, _ => .error .notNull

/-- The statement `DELETE FROM expenses WHERE id = ?`: returns `changes` and the
new database. -/
def Db.deleteExpense (db : Db) (id : String) : Nat × Db :=
  (db.expenses.countP (fun r => idMatches id r.id),
   { db with expenses := db.expenses.filter (fun r => !idMatches id r.id) })

/-- The ordering `ORDER BY date DESC, created_at DESC`: `a` may precede `b`. Text is
compared code point by code point, as SQLite compares text byte by byte. -/
def listOrder (a b : Expense) : Prop :=
  b.date.toList < a.date.toList ∨
    (b.date = a.date ∧ b.created_at.toList ≤ a.created_at.toList)

instance : DecidableRel listOrder := fun a b => by
  unfold listOrder
  exact inferInstance

/-- The statements `SELECT * FROM expenses [WHERE date LIKE ?] ORDER BY date DESC,
created_at DESC`; rows that tie keep their table order. -/
def Db.selectExpenses (db : Db) (pattern : Option String) : List Expense :=
  match pattern with
  | none => db.expenses.insertionSort listOrder
  | some p => (db.expenses.filter (fun r => likeMatch p.data r.date.data)).insertionSort listOrder

/-! ## Sessions, requests and responses -/

/-- The value stored at `req.session.user`. -/
structure SessionUser where
  id : Int
  username : String
  deriving DecidableEq, Repr

/-- The session object `req.session`, as far as the server uses it
(`authenticated` is `false` where the property is not set). -/
structure Session where
  authenticated : Bool
  user : Option SessionUser
  deriving DecidableEq, Repr

/-- The session a request gets when it has none, or after `destroy`. -/
def Session.fresh : Session := { authenticated := false, user := none }

/-- The body `{ date, category, item_name, store, amount }` of a create or update
request. -/
structure ExpenseBody where
  date : JsVal
  category : JsVal
  item_name : JsVal
  store : JsVal
  amount : JsVal
  deriving DecidableEq, Repr

/-- The record the create and update handlers send back (`id` and `amount` come
from `parseInt`, `none` being `NaN`; `created_at` is only sent by create). -/
structure ExpenseJson where
  id : Option Int
  date : JsVal
  category : JsVal
  item_name : JsVal
  store : JsVal
  amount : Option Int
  created_at : Option String
  updated_at : String
  deriving DecidableEq, Repr

/-- Response bodies. -/
inductive Body where
  | error (msg : String) : Body
  | text (msg : String) : Body
  | success (msg : String) : Body
  | loggedIn (msg : String) (username : String) : Body
  | status (authenticated : Bool) (user : Option SessionUser) : Body
  | rows (rs : List Expense) : Body
  | expense (e : ExpenseJson) : Body
  deriving DecidableEq, Repr

/-- An HTTP response: status code and body. -/
structure Response where
  status : Nat
  body : Body
  deriving DecidableEq, Repr

/-- The clock readings a handler takes: `sqlNow` is `CURRENT_TIMESTAMP` of the
statement, `iso1` and `iso2` are the successive `new Date().toISOString()`. -/
structure Clock where
  sqlNow : String
  iso1 : String
  iso2 : String
  deriving DecidableEq, Repr

/-! ## The handlers of `server.js` -/

/-- The middleware `requireAuth`: `true` when it calls `next()`. -/
def requireAuth (sess : Session) : Bool :=
  sess.authenticated

/-- The response of `requireAuth` when it does not call `next()`. -/
def unauthorized : Response :=
  { status := 401, body := .error "認証が必要です" }

/-- The handler `GET /api/auth/status`. -/
def authStatus (sess : Session) : Response :=
  { status := 200, body := .status sess.authenticated sess.user }

/-- The handler of `POST /api/auth/login` behind the limiter. `compare` is
`bcrypt.compare`. The result `none` means that no response is sent: for a truthy
password that is not a string `bcrypt.compare` rejects inside the callback. -/
def login (compare : String → String → Bool) (password : JsVal) (sess : Session) (db : Db) :
    Option Response × Session :=
  if !password.truthy then
    (some { status := 400, body := .error "パスワードが必要です" }, sess)
  else
    match db.users.find? (fun u => u.username == "admin") with
    | none => (some { status := 401, body := .error "パスワードが正しくありません" }, sess)
    | some user =>
      match password with
      | .str p =>
        if compare p user.password_hash then
          (some { status := 200, body := .loggedIn "ログインしました" user.username },
           { authenticated := true, user := some { id := user.id, username := user.username } })
        else
          (some { status := 401, body := .error "パスワードが正しくありません" }, sess)
      | _ => (none, sess)

/-- The admin credential exists and the password matches its stored hash. -/
def adminMatches (compare : String → String → Bool) (p : String) (db : Db) : Bool :=
  match db.users.find? (fun u => u.username == "admin") with
  | some u => compare p u.password_hash
  | none => false

/-- The handler `POST /api/auth/logout`: the session is destroyed. -/
def logout (_sess : Session) : Response × Session :=
  ({ status := 200, body := .success "ログアウトしました" }, Session.fresh)

/-- A query parameter is truthy when it is present and not the empty string. -/
def queryTruthy : Option String → Bool
  | none => false
  | some s => s != ""

/-- The length of a string in UTF-16 code units (JavaScript `length`). -/
def utf16Length (s : String) : Nat :=
  (s.data.map (fun c => if c.toNat < 0x10000 then 1 else 2)).sum

/-- The call `s.padStart(2, '0')`. -/
def padStart2 (s : String) : String :=
  if utf16Length s ≥ 2 then s
  else if utf16Length s = 1 then "0" ++ s
  else "00"

/-- The handler `GET /api/expenses` with the query parameters `year` and `month`. -/
def getExpenses (sess : Session) (year month : Option String) (db : Db) : Response :=
  if !requireAuth sess then unauthorized
  else
    match year, month with
    | some y, some m =>
      if queryTruthy (some y) && queryTruthy (some m) then
        let monthStr := y ++ "-" ++ padStart2 m
        { status := 200, body := .rows (db.selectExpenses (some (monthStr ++ "%"))) }
      else { status := 200, body := .rows (db.selectExpenses none) }
    | _, _ => { status := 200, body := .rows (db.selectExpenses none) }

/-- The validation `!date || !category || !amount || amount <= 0` of the create and
update handlers: `true` when the request is rejected. -/
def invalidExpense (b : ExpenseBody) : Bool :=
  !b.date.truthy || !b.category.truthy || !b.amount.truthy || b.amount.leZero

/-- The response to a request that fails the validation. -/
def validationError : Response :=
  { status := 400, body := .error "必須項目が不足しているか、金額が無効です" }

/-- The handler `POST /api/expenses`. -/
def postExpenses (sess : Session) (clk : Clock) (b : ExpenseBody) (db : Db) : Response × Db :=
  if !requireAuth sess then (unauthorized, db)
  else if invalidExpense b then (validationError, db)
  else
    match db.insertExpense clk.sqlNow (bindText b.date) (bindText b.category)
        (bindText b.item_name.orEmpty) (bindText b.store.orEmpty) (jsParseInt b.amount) with
    | .error _ => ({ status := 500, body := .error "データ保存エラー" }, db)
    | .ok (lastID, db') =>
      ({ status := 200,
         body := .expense
           { id := some lastID, date := b.date, category := b.category,
             item_name := b.item_name.orEmpty, store := b.store.orEmpty,
             amount := jsParseInt b.amount,
             created_at := some clk.iso1, updated_at := clk.iso2 } }, db')

/-- The handler `PUT /api/expenses/:id`. -/
def putExpenses (sess : Session) (clk : Clock) (id : String) (b : ExpenseBody) (db : Db) :
    Response × Db :=
  if !requireAuth sess then (unauthorized, db)
  else if invalidExpense b then (validationError, db)
  else
    match db.updateExpense clk.sqlNow (bindText b.date) (bindText b.category)
        (bindText b.item_name.orEmpty) (bindText b.store.orEmpty) (jsParseInt b.amount) id with
    | .error _ => ({ status := 500, body := .error "データ更新エラー" }, db)
    | .ok (changes, db') =>
      if changes = 0 then ({ status := 404, body := .error "データが見つかりません" }, db')
      else
        ({ status := 200,
           body := .expense
             { id := jsParseInt (.str id), date := b.date, category := b.category,
               item_name := b.item_name.orEmpty, store := b.store.orEmpty,
               amount := jsParseInt b.amount,
               created_at := none, updated_at := clk.iso1 } }, db')

/-- The handler `DELETE /api/expenses/:id`. -/
def deleteExpenses (sess : Session) (id : String) (db : Db) : Response × Db :=
  if !requireAuth sess then (unauthorized, db)
  else
    match db.deleteExpense id with
    | (changes, db') =>
      if changes = 0 then ({ status := 404, body := .error "データが見つかりません" }, db')
      else ({ status := 200, body := .success "データを削除しました" }, db')

/-! ## The login rate limiter -/

/-- The options `{ windowMs, max, message }` given to `rateLimit`. -/
structure RateLimitOptions where
  windowMs : Nat
  max : Nat
  message : String
  deriving DecidableEq, Repr

/-- The options of `loginLimiter` in `server.js`. -/
def loginLimiter : RateLimitOptions :=
  { windowMs := 15 * 60 * 1000, max := 5,
    message := "ログイン試行回数が多すぎます。15分後に再試行してください。" }

/-- The counter the limiter keeps for one client: the requests counted in the
current window and the time at which the window ends. -/
structure Window where
  hits : Nat
  resetTime : Nat
  deriving DecidableEq, Repr

/-- The limiter's counters, keyed by the originating client. -/
abbrev RateStore := String → Option Window

/-- Modelled from the spec: the middleware that `rateLimit(options)` returns, which
belongs to the package express-rate-limit and is not under `src/`. Every request
of a client is counted in the client's current window of `windowMs`
milliseconds; a request that arrives when the window has ended starts a new one.
The window a request at time `now` is counted in: -/
def RateLimitOptions.count (opts : RateLimitOptions) (store : RateStore) (client : String)
    (now : Nat) : Window :=
  match store client with
  | none => { hits := 1, resetTime := now + opts.windowMs }
  | some w =>
    if w.resetTime ≤ now then { hits := 1, resetTime := now + opts.windowMs }
    else { hits := w.hits + 1, resetTime := w.resetTime }

/-- Modelled from the spec: the counters after the limiter has counted a request
(the store of express-rate-limit is not under `src/`). -/
def RateLimitOptions.record (opts : RateLimitOptions) (store : RateStore) (client : String)
    (now : Nat) : RateStore :=
  fun k => if k = client then some (opts.count store client now) else store k

/-- Modelled from the spec: the limiter lets a request through while the client
has made at most `max` requests in the window, the counted one included. -/
def RateLimitOptions.admits (opts : RateLimitOptions) (store : RateStore) (client : String)
    (now : Nat) : Bool :=
  decide ((opts.count store client now).hits ≤ opts.max)

/-- The response of the limiter to a request over the limit. -/
def tooManyRequests (opts : RateLimitOptions) : Response :=
  { status := 429, body := .text opts.message }

/-- The route `app.post('/api/auth/login', loginLimiter, handler)`: the limiter,
then the handler. -/
def loginRoute (compare : String → String → Bool) (store : RateStore) (client : String)
    (now : Nat) (password : JsVal) (sess : Session) (db : Db) :
    Option Response × Session × RateStore :=
  if loginLimiter.admits store client now then
    let r := login compare password sess db
    (r.1, r.2, loginLimiter.record store client now)
  else
    (some (tooManyRequests loginLimiter), sess, loginLimiter.record store client now)

/-- A login request of a client: the time it arrives and the password it carries. -/
structure LoginRequest where
  time : Nat
  password : JsVal
  deriving DecidableEq, Repr

/-- A client sends login requests one after another on one session: the
responses, the session and the limiter's counters at the end. -/
def runLogins (compare : String → String → Bool) (client : String) (db : Db) :
    List LoginRequest → Session → RateStore → List (Option Response) × Session × RateStore
  | [], sess, store => ([], sess, store)
  | q :: qs, sess, store =>
    let r := loginRoute compare store client q.time q.password sess db
    let rest := runLogins compare client db qs r.2.1 r.2.2
    (r.1 :: rest.1, rest.2.1, rest.2.2)

/-! ## Sample data -/

/-- A stand-in for `bcrypt.compare` in the examples: the hash of `p` is `bcrypt:p`. -/
def sampleCompare (p h : String) : Bool :=
  h == "bcrypt:" ++ p

/-- A `users` table that holds the user `admin` with the password `r246`. -/
def sampleUsers : List User :=
  [{ id := 1, username := "admin", password_hash := "bcrypt:r246" }]

/-- A database with two expenses. -/
def sampleDb : Db :=
  { users := sampleUsers,
    expenses :=
      [{ id := 1, date := "2024-03-01", category := "food", item_name := some "rice",
         store := some "", amount := 1200, created_at := "2024-03-01 09:00:00",
         updated_at := "2024-03-01 09:00:00" },
       { id := 2, date := "2024-04-15", category := "rent", item_name := some "",
         store := some "", amount := 80000, created_at := "2024-04-15 10:00:00",
         updated_at := "2024-04-15 10:00:00" }],
    seq := 2 }

/-- A database whose only expense has a date that starts with a capital letter
(the create handler accepts any non-empty date). -/
def sampleLetterDb : Db :=
  { users := sampleUsers,
    expenses :=
      [{ id := 1, date := "FY24-03-01", category := "food", item_name := some "",
         store := some "", amount := 500, created_at := "2024-03-01 09:00:00",
         updated_at := "2024-03-01 09:00:00" }],
    seq := 1 }

/-- A logged-in session. -/
def sampleSession : Session :=
  { authenticated := true, user := some { id := 1, username := "admin" } }

/-- Clock readings. -/
def sampleClock : Clock :=
  { sqlNow := "2024-05-01 12:00:00", iso1 := "2024-05-01T12:00:00.000Z",
    iso2 := "2024-05-01T12:00:00.001Z" }

/-- A limiter store without any counter. -/
def emptyStore : RateStore := fun _ => none

/-- Five wrong passwords followed by the right one, all within a minute. -/
def sampleAttempts : List LoginRequest :=
  [{ time := 2000, password := .str "b" }, { time := 3000, password := .str "c" },
   { time := 4000, password := .str "d" }, { time := 5000, password := .str "e" }]

/-! ## The session gate -/

/-- C1: a request to a protected endpoint (list, create, update, delete) on a
session that is not authenticated, either because nobody logged in on it or
because it is the session left by a logout, is answered 401 by `requireAuth`; the
answer is the same fixed response whatever the tables hold, and the database is
handed back as it was. -/
theorem C1_unauthenticated_is_rejected (sess : Session)
    (h : sess.authenticated = false ∨ ∃ s0, sess = (logout s0).2)
    (clk : Clock) (year month : Option String) (id : String) (b : ExpenseBody) (db : Db) :
    unauthorized.status = 401 ∧
    getExpenses sess year month db = unauthorized ∧
    postExpenses sess clk b db = (unauthorized, db) ∧
    putExpenses sess clk id b db = (unauthorized, db) ∧
    deleteExpenses sess id db = (unauthorized, db) := by
  have ha : sess.authenticated = false := by
    rcases h with h | ⟨s0, rfl⟩
    · exact h
    · rfl
  simp [getExpenses, postExpenses, putExpenses, deleteExpenses, requireAuth, ha, unauthorized]

/-- C1 at the session a logout leaves behind, on the sample database. -/
theorem C1_unauthenticated_is_rejected_witness :
    (Session.fresh.authenticated = false ∨ ∃ s0, Session.fresh = (logout s0).2) ∧
    (unauthorized.status = 401 ∧
    getExpenses Session.fresh (some "2024") (some "3") sampleDb = unauthorized ∧
    postExpenses Session.fresh sampleClock
      { date := .str "2024-03-01", category := .str "food", item_name := .undefined,
        store := .undefined, amount := .num 1200 } sampleDb = (unauthorized, sampleDb) ∧
    putExpenses Session.fresh sampleClock "1"
      { date := .str "2024-03-01", category := .str "food", item_name := .undefined,
        store := .undefined, amount := .num 1200 } sampleDb = (unauthorized, sampleDb) ∧
    deleteExpenses Session.fresh "1" sampleDb = (unauthorized, sampleDb)) :=
  ⟨Or.inl rfl, C1_unauthenticated_is_rejected Session.fresh (Or.inl rfl) _ _ _ _ _ _⟩

/-- C2 as stated fails at the empty password: it is not the password of the
admin credential, yet the answer is 400, not 401. -/
theorem C2_empty_password_is_400 :
    sampleDb.users.find? (fun u => u.username == "admin") =
      some { id := 1, username := "admin", password_hash := "bcrypt:r246" } ∧
    adminMatches sampleCompare "" sampleDb = false ∧
    (login sampleCompare (.str "") Session.fresh sampleDb).1 =
      some { status := 400, body := .error "パスワードが必要です" } := by
  decide

/-- C2, amended: for a non-empty string password, an unauthenticated session is
authenticated after login exactly when the admin credential exists and the
password matches its hash, and then the session's user is the id and username of
that credential; a password that does not match is answered 401 and leaves the
session as it was, whatever the session was before. The empty password is
answered 400 and leaves the session as it was. -/
theorem C2_login_nonempty_password (compare : String → String → Bool) (p : String)
    (hp : p ≠ "") (sess : Session) (db : Db) :
    (sess.authenticated = false →
      ((login compare (.str p) sess db).2.authenticated = true ↔
        adminMatches compare p db = true)) ∧
    (∀ u, db.users.find? (fun u => u.username == "admin") = some u →
      compare p u.password_hash = true →
      (login compare (.str p) sess db).2 =
        { authenticated := true, user := some { id := u.id, username := u.username } }) ∧
    (adminMatches compare p db = false →
      (login compare (.str p) sess db) =
        (some { status := 401, body := .error "パスワードが正しくありません" }, sess)) ∧
    login compare (.str "") sess db =
      (some { status := 400, body := .error "パスワードが必要です" }, sess) := by
  have ht : (JsVal.str p).truthy = true := by simp [JsVal.truthy, hp]
  refine ⟨?_, ?_, ?_, ?_⟩
  · intro hs
    unfold adminMatches login
    rw [ht]
    cases hf : db.users.find? (fun u => u.username == "admin") with
    | none => simp [hs]
    | some u =>
      by_cases hc : compare p u.password_hash = true
      · simp [hc]
      · simp [hc, hs]
  · intro u hu hc
    simp [login, ht, hu, hc]
  · intro hn
    unfold adminMatches at hn
    unfold login
    rw [ht]
    cases hf : db.users.find? (fun u => u.username == "admin") with
    | none => simp
    | some u =>
      rw [hf] at hn
      simp only at hn
      simp [hn]
  · simp [login, JsVal.truthy]

/-- C2 amended, at the default password and at a wrong one on the sample database. -/
theorem C2_login_nonempty_password_witness :
    ("r246" ≠ "") ∧
    (login sampleCompare (.str "r246") Session.fresh sampleDb).2 =
      { authenticated := true, user := some { id := 1, username := "admin" } } :=
  ⟨by decide,
   (C2_login_nonempty_password sampleCompare "r246" (by decide) Session.fresh sampleDb).2.1
     { id := 1, username := "admin", password_hash := "bcrypt:r246" } (by decide) (by decide)⟩

/-! ## Validation of create and update -/

/-- C3 fails on the code: the validation compares the raw `amount` with 0 and the
statement stores `parseInt(amount)`. A create request with `amount: "0.5"` passes
the validation, is answered 200, and the row it inserts has amount 0; with
`amount: "-5abc"` the inserted row has amount -5; an update request with
`amount: "0.5"` sets the amount of an existing row to 0. -/
theorem C3_accepted_request_stores_nonpositive_amount :
    (∀ r ∈ sampleDb.expenses, 0 < r.amount) ∧
    (postExpenses sampleSession sampleClock
      { date := .str "2024-03-01", category := .str "food", item_name := .undefined,
        store := .undefined, amount := .str "0.5" } sampleDb).1.status = 200 ∧
    (postExpenses sampleSession sampleClock
      { date := .str "2024-03-01", category := .str "food", item_name := .undefined,
        store := .undefined, amount := .str "0.5" } sampleDb).2.expenses.map (fun r => r.amount)
      = [1200, 80000, 0] ∧
    (postExpenses sampleSession sampleClock
      { date := .str "2024-03-01", category := .str "food", item_name := .undefined,
        store := .undefined, amount := .str "-5abc" } sampleDb).1.status = 200 ∧
    (postExpenses sampleSession sampleClock
      { date := .str "2024-03-01", category := .str "food", item_name := .undefined,
        store := .undefined, amount := .str "-5abc" } sampleDb).2.expenses.map (fun r => r.amount)
      = [1200, 80000, -5] ∧
    (putExpenses sampleSession sampleClock "1"
      { date := .str "2024-03-01", category := .str "food", item_name := .undefined,
        store := .undefined, amount := .str "0.5" } sampleDb).1.status = 200 ∧
    (putExpenses sampleSession sampleClock "1"
      { date := .str "2024-03-01", category := .str "food", item_name := .undefined,
        store := .undefined, amount := .str "0.5" } sampleDb).2.expenses.map (fun r => r.amount)
      = [0, 80000] := by
  decide

/-- C4: an authenticated create request whose date is missing or empty, or whose
category is missing or empty, or whose amount is missing, zero or negative, is
answered 400 with the fixed validation response, which does not depend on the
tables, and the database is handed back as it was: no row is added or changed. -/
theorem C4_invalid_create_is_400 (sess : Session) (ha : sess.authenticated = true)
    (clk : Clock) (b : ExpenseBody) (db : Db)
    (hb : (b.date = .undefined ∨ b.date = .null ∨ b.date = .str "") ∨
          (b.category = .undefined ∨ b.category = .null ∨ b.category = .str "") ∨
          (b.amount = .undefined ∨ b.amount = .null ∨ ∃ n : Int, b.amount = .num n ∧ n ≤ 0)) :
    validationError.status = 400 ∧
    postExpenses sess clk b db = (validationError, db) := by
  have hi : invalidExpense b = true := by
    unfold invalidExpense
    rcases hb with (h | h | h) | (h | h | h) | (h | h | ⟨n, h, hn⟩) <;>
      simp [h, JsVal.truthy, JsVal.leZero, JsVal.numClass]
    rcases lt_or_eq_of_le hn with h0 | h0
    · simp [h0]
    · simp [h0]
  refine ⟨rfl, ?_⟩
  simp [postExpenses, requireAuth, ha, hi]

/-- C4 at a create request with amount 0 on the sample database. -/
theorem C4_invalid_create_is_400_witness :
    sampleSession.authenticated = true ∧
    postExpenses sampleSession sampleClock
      { date := .str "2024-03-01", category := .str "food", item_name := .undefined,
        store := .undefined, amount := .num 0 } sampleDb = (validationError, sampleDb) :=
  ⟨rfl, (C4_invalid_create_is_400 sampleSession rfl sampleClock
      { date := .str "2024-03-01", category := .str "food", item_name := .undefined,
        store := .undefined, amount := .num 0 } sampleDb
      (Or.inr (Or.inr (Or.inr (Or.inr ⟨0, rfl, le_refl 0⟩))))).2⟩

/-! ## Listing -/

/-- C5 as stated fails in three ways. A parameter that is supplied as the empty
string switches the filter off: with `year=` and `month=3` both rows come back,
none of which begins with `-03`. `%` and `_` in a parameter are wildcards of
`LIKE`: with `year=%` (or `year=20_4`) and `month=3` the row dated `2024-03-01`
comes back, which does not begin with `%-03` (or `20_4-03`). `LIKE` ignores ASCII
case: with `year=fy24` the row dated `FY24-03-01` comes back. -/
theorem C5_filter_is_not_a_prefix_test :
    getExpenses sampleSession none none sampleDb =
      { status := 200, body := .rows sampleDb.expenses.reverse } ∧
    getExpenses sampleSession (some "") (some "3") sampleDb =
      { status := 200, body := .rows sampleDb.expenses.reverse } ∧
    sampleDb.expenses.reverse.filter
      (fun r => ("" ++ "-" ++ padStart2 "3").toList.isPrefixOf r.date.toList) = [] ∧
    getExpenses sampleSession (some "%") (some "3") sampleDb =
      { status := 200, body := .rows (sampleDb.expenses.take 1) } ∧
    sampleDb.expenses.reverse.filter
      (fun r => ("%" ++ "-" ++ padStart2 "3").toList.isPrefixOf r.date.toList) = [] ∧
    getExpenses sampleSession (some "20_4") (some "3") sampleDb =
      { status := 200, body := .rows (sampleDb.expenses.take 1) } ∧
    sampleDb.expenses.reverse.filter
      (fun r => ("20_4" ++ "-" ++ padStart2 "3").toList.isPrefixOf r.date.toList) = [] ∧
    getExpenses sampleSession none none sampleLetterDb =
      { status := 200, body := .rows sampleLetterDb.expenses } ∧
    getExpenses sampleSession (some "fy24") (some "3") sampleLetterDb =
      { status := 200, body := .rows sampleLetterDb.expenses } ∧
    sampleLetterDb.expenses.filter
      (fun r => ("fy24" ++ "-" ++ padStart2 "3").toList.isPrefixOf r.date.toList) = [] := by
  decide

theorem listOrder_total (a b : Expense) : listOrder a b ∨ listOrder b a := by
  unfold listOrder
  rcases lt_trichotomy a.date.toList b.date.toList with h | h | h
  · exact Or.inr (Or.inl h)
  · have hd : a.date = b.date := String.toList_inj.mp h
    rcases le_total a.created_at.toList b.created_at.toList with hc | hc
    · exact Or.inr (Or.inr ⟨hd, hc⟩)
    · exact Or.inl (Or.inr ⟨hd.symm, hc⟩)
  · exact Or.inl (Or.inl h)

theorem listOrder_trans (a b c : Expense) (hab : listOrder a b) (hbc : listOrder b c) :
    listOrder a c := by
  unfold listOrder at *
  rcases hab with h1 | ⟨h1, h1c⟩ <;> rcases hbc with h2 | ⟨h2, h2c⟩
  · exact Or.inl (lt_trans h2 h1)
  · exact Or.inl (by rw [h2]; exact h1)
  · exact Or.inl (by rw [← h1]; exact h2)
  · exact Or.inr ⟨h2.trans h1, le_trans h2c h1c⟩

theorem asciiLower_toNat_upper (d : Char) (h : 65 ≤ d.toNat ∧ d.toNat ≤ 90) :
    (asciiLower d).toNat = d.toNat + 32 := by
  obtain ⟨h1, h2⟩ := h
  have hd : d = Char.ofNat d.toNat := (Char.ofNat_toNat d).symm
  generalize d.toNat = n at h1 h2 hd
  subst hd
  interval_cases n <;> decide

theorem asciiLower_eq_literal (c d : Char) (hc : likeLiteral c = true) :
    (asciiLower c == asciiLower d) = (c == d) := by
  simp only [likeLiteral, Bool.and_eq_true, bne_iff_ne, ne_eq, Bool.not_eq_true',
    Bool.and_eq_false_iff, decide_eq_false_iff_not, not_le] at hc
  obtain ⟨⟨⟨-, -⟩, hu⟩, hl⟩ := hc
  have hcl : asciiLower c = c := by
    unfold asciiLower
    rw [if_neg]
    omega
  rw [hcl]
  by_cases hd : 65 ≤ d.toNat ∧ d.toNat ≤ 90
  · have h1 := asciiLower_toNat_upper d hd
    have n1 : c ≠ asciiLower d := by
      intro e
      rw [← e] at h1
      omega
    have n2 : c ≠ d := by
      intro e
      rw [e] at hu
      omega
    simp [n1, n2]
  · have : asciiLower d = d := by
      unfold asciiLower
      rw [if_neg hd]
    rw [this]

theorem likeMatch_percent (s : List Char) : likeMatch ['%'] s = true := by
  simp only [likeMatch, ↓reduceIte, List.any_eq_true]
  exact ⟨[], (List.mem_tails _ _).mpr List.nil_suffix, rfl⟩

theorem likeMatch_literal_prefix (p : List Char) (hp : ∀ c ∈ p, likeLiteral c = true) :
    ∀ s, likeMatch (p ++ ['%']) s = p.isPrefixOf s := by
  induction p with
  | nil => intro s; simpa using likeMatch_percent s
  | cons c p ih =>
    intro s
    have hc := hp c (List.mem_cons_self _ _)
    have hc' := hc
    simp only [likeLiteral, Bool.and_eq_true, bne_iff_ne, ne_eq] at hc'
    obtain ⟨⟨⟨h1, h2⟩, -⟩, -⟩ := hc'
    cases s with
    | nil => simp [likeMatch, h1]
    | cons d s =>
      simp only [List.cons_append, likeMatch, h1, ↓reduceIte, h2, decide_False, Bool.false_or,
        List.isPrefixOf]
      rw [asciiLower_eq_literal c d hc]
      have := ih (fun x hx => hp x (List.mem_cons_of_mem _ hx)) s
      rw [← this]
      rfl
theorem orderedInsert_of_forall {α : Type} (r : α → α → Prop) [DecidableRel r] (a : α)
    (l : List α) (h : ∀ x ∈ l, r a x) : l.orderedInsert r a = a :: l := by
  cases l with
  | nil => rfl
  | cons b t => simp [List.orderedInsert, h b (List.mem_cons_self _ _)]

theorem filter_orderedInsert {α : Type} (r : α → α → Prop) [DecidableRel r]
    (htrans : ∀ a b c, r a b → r b c → r a c) (p : α → Bool) (a : α) :
    ∀ l : List α, l.Sorted r →
      (l.orderedInsert r a).filter p =
        if p a = true then (l.filter p).orderedInsert r a else l.filter p := by
  intro l
  induction l with
  | nil => intro _; by_cases hp : p a = true <;> simp [hp]
  | cons b t ih =>
    intro hs
    have hbt : ∀ x ∈ t, r b x := fun x hx => List.rel_of_sorted_cons hs x hx
    have ht : t.Sorted r := hs.of_cons
    by_cases hab : r a b
    · have hall : ∀ x ∈ (b :: t).filter p, r a x := by
        intro x hx
        have hx' : x ∈ b :: t := (List.mem_filter.mp hx).1
        rcases List.mem_cons.mp hx' with e | e
        · rw [e]; exact hab
        · exact htrans _ _ _ hab (hbt x e)
      rw [orderedInsert_of_forall r a _ hall]
      simp only [List.orderedInsert, hab, ↓reduceIte]
      by_cases hp : p a = true
      · simp [hp]
      · simp [hp]
    · have ih' := ih ht
      simp only [List.orderedInsert, hab, ↓reduceIte]
      by_cases hpb : p b = true
      · rw [List.filter_cons_of_pos hpb, ih', List.filter_cons_of_pos hpb]
        by_cases hp : p a = true
        · simp [hp, List.orderedInsert, hab]
        · simp [hp]
      · rw [List.filter_cons_of_neg hpb, ih', List.filter_cons_of_neg hpb]

theorem filter_insertionSort {α : Type} (r : α → α → Prop) [DecidableRel r]
    (htotal : ∀ a b, r a b ∨ r b a) (htrans : ∀ a b c, r a b → r b c → r a c)
    (p : α → Bool) (l : List α) :
    (l.insertionSort r).filter p = (l.filter p).insertionSort r := by
  induction l with
  | nil => rfl
  | cons a t ih =>
    have hs : (t.insertionSort r).Sorted r :=
      @List.sorted_insertionSort _ r _ ⟨htotal⟩ ⟨htrans⟩ t
    rw [List.insertionSort, filter_orderedInsert r htrans p a _ hs, ih]
    by_cases hp : p a = true
    · simp [hp, List.filter_cons_of_pos]
    · simp [hp, List.filter_cons_of_neg]
theorem padStart2_literal (m : String) (hm : ∀ c ∈ m.toList, likeLiteral c = true) :
    ∀ c ∈ (padStart2 m).toList, likeLiteral c = true := by
  unfold padStart2
  split
  · exact hm
  · split
    · intro c hc
      simp only [String.toList, String.data_append, List.mem_append] at hc
      rcases hc with h | h
      · have : c = '0' := by simpa using h
        rw [this]; decide
      · exact hm c h
    · intro c hc
      have : c = '0' := by
        have h2 : c ∈ ['0', '0'] := hc
        simpa using h2
      rw [this]; decide

theorem selectExpenses_literal (db : Db) (pre : String)
    (hpre : ∀ c ∈ pre.toList, likeLiteral c = true) :
    db.selectExpenses (some (pre ++ "%")) =
      (db.selectExpenses none).filter (fun r => pre.toList.isPrefixOf r.date.toList) := by
  have hfun : (fun r : Expense => likeMatch (pre ++ "%").data r.date.data) =
      (fun r => pre.toList.isPrefixOf r.date.toList) := by
    funext r
    have : (pre ++ "%").data = pre.toList ++ ['%'] := by
      simp [String.data_append, String.toList]
    rw [this]
    exact likeMatch_literal_prefix pre.toList hpre r.date.data
  simp only [Db.selectExpenses, hfun]
  exact (filter_insertionSort listOrder listOrder_total listOrder_trans _ _).symm

/-- C5, amended: when year and month are both non-empty strings made of
characters other than `%`, `_` and ASCII letters, the filtered list is the
unfiltered list restricted, in the same order, to the records whose date begins
with year, `-`, and month left-padded with `0` to two characters, so every
record of it has such a date; `month=3` and `month=03` give the same answer for
any year; a year or month that is the empty string gives the unfiltered list. -/
theorem C5_filter_with_literal_parameters (sess : Session) (ha : sess.authenticated = true)
    (y m : String) (hy : y ≠ "") (hm : m ≠ "")
    (hyl : ∀ c ∈ y.toList, likeLiteral c = true) (hml : ∀ c ∈ m.toList, likeLiteral c = true)
    (db : Db) :
    ∃ all : List Expense,
      getExpenses sess none none db = { status := 200, body := .rows all } ∧
      getExpenses sess (some y) (some m) db =
        { status := 200,
          body := .rows (all.filter
            (fun r => (y ++ "-" ++ padStart2 m).toList.isPrefixOf r.date.toList)) } ∧
      getExpenses sess (some y) (some "3") db = getExpenses sess (some y) (some "03") db ∧
      getExpenses sess (some "") (some m) db = getExpenses sess none none db ∧
      getExpenses sess (some y) (some "") db = getExpenses sess none none db := by
  have hpre : ∀ c ∈ (y ++ "-" ++ padStart2 m).toList, likeLiteral c = true := by
    intro c hc
    simp only [String.toList, String.data_append, List.mem_append] at hc
    rcases hc with (h | h) | h
    · exact hyl c h
    · have : c = '-' := by simpa using h
      rw [this]; decide
    · exact padStart2_literal m hml c h
  refine ⟨db.selectExpenses none, ?_, ?_, ?_, ?_, ?_⟩
  · simp [getExpenses, requireAuth, ha]
  · simp [getExpenses, requireAuth, ha, queryTruthy, hy, hm, selectExpenses_literal db _ hpre]
  · have h3 : padStart2 "3" = padStart2 "03" := by decide
    simp [getExpenses, requireAuth, ha, queryTruthy, h3]
  · simp [getExpenses, requireAuth, ha, queryTruthy]
  · simp [getExpenses, requireAuth, ha, queryTruthy]

/-- C5 amended, at `year=2024` and `month=3` on the sample database. -/
theorem C5_filter_with_literal_parameters_witness :
    sampleSession.authenticated = true ∧ "2024" ≠ "" ∧ "3" ≠ "" ∧
    (∀ c ∈ "2024".toList, likeLiteral c = true) ∧ (∀ c ∈ "3".toList, likeLiteral c = true) ∧
    ∃ all : List Expense,
      getExpenses sampleSession none none sampleDb = { status := 200, body := .rows all } ∧
      getExpenses sampleSession (some "2024") (some "3") sampleDb =
        { status := 200,
          body := .rows (all.filter
            (fun r => ("2024" ++ "-" ++ padStart2 "3").toList.isPrefixOf r.date.toList)) } ∧
      getExpenses sampleSession (some "2024") (some "3") sampleDb =
        getExpenses sampleSession (some "2024") (some "03") sampleDb ∧
      getExpenses sampleSession (some "") (some "3") sampleDb =
        getExpenses sampleSession none none sampleDb ∧
      getExpenses sampleSession (some "2024") (some "") sampleDb =
        getExpenses sampleSession none none sampleDb :=
  ⟨rfl, by decide, by decide, by decide, by decide,
   C5_filter_with_literal_parameters sampleSession rfl "2024" "3" (by decide) (by decide)
     (by decide) (by decide) sampleDb⟩

theorem maxRowid_ge (rows : List Expense) (r : Expense) (hr : r ∈ rows) :
    ∃ m, maxRowid rows = some m ∧ r.id ≤ m := by
  induction rows with
  | nil => simp at hr
  | cons x xs ih =>
    unfold maxRowid
    rcases List.mem_cons.mp hr with h | h
    · subst h
      cases hm : maxRowid xs with
      | none => exact ⟨r.id, rfl, le_refl _⟩
      | some m => exact ⟨max r.id m, rfl, le_max_left _ _⟩
    · obtain ⟨m, hm, hle⟩ := ih h
      rw [hm]
      exact ⟨max x.id m, rfl, le_trans hle (le_max_right _ _)⟩

theorem nextRowid_gt (db : Db) (newId : Int) (h : nextRowid db = .ok newId) :
    ∀ r ∈ db.expenses, r.id < newId := by
  intro r hr
  obtain ⟨m, hm, hle⟩ := maxRowid_ge db.expenses r hr
  unfold nextRowid at h
  rw [hm] at h
  simp only at h
  split at h
  · cases h
  · injection h with h
    rw [← h]
    have : m + 1 ≤ max (m + 1) (db.seq + 1) := le_max_left _ _
    omega

theorem insertExpense_ok (db db' : Db) (now : String) (date category item store : Option String)
    (amount : Option Int) (newId : Int)
    (h : db.insertExpense now date category item store amount = .ok (newId, db')) :
    nextRowid db = .ok newId ∧
    ∃ d c a, date = some d ∧ category = some c ∧ amount = some a ∧
      db'.expenses = db.expenses ++
        [{ id := newId, date := d, category := c, item_name := item, store := store,
           amount := a, created_at := now, updated_at := now }] := by
  unfold Db.insertExpense at h
  cases hn : nextRowid db with
  | error e => rw [hn] at h; cases h
  | ok v =>
    rw [hn] at h
    cases date <;> cases category <;> cases amount <;> simp at h
    obtain ⟨h1, h2⟩ := h
    subst h1
    subst h2
    exact ⟨rfl, _, _, _, rfl, rfl, rfl, rfl⟩

/-- C6: after a create request that is accepted, the unfiltered list is the old
rows together with one new row, the one carrying the id the response reports: no
old row has that id, so it appears exactly once, every old row is in the list,
and the list is sorted by date descending and, for equal dates, by created_at
descending. -/
theorem C6_create_then_list (sess : Session) (clk : Clock) (b : ExpenseBody) (db : Db)
    (h : (postExpenses sess clk b db).1.status = 200) :
    ∃ (newId : Int) (e : ExpenseJson) (row : Expense) (l : List Expense),
      (postExpenses sess clk b db).1.body = .expense e ∧ e.id = some newId ∧
      row.id = newId ∧
      getExpenses sess none none (postExpenses sess clk b db).2 =
        { status := 200, body := .rows l } ∧
      l.Perm (row :: db.expenses) ∧
      l.countP (fun r => r.id = newId) = 1 ∧
      (∀ r ∈ db.expenses, r ∈ l) ∧
      l.Sorted listOrder := by
  unfold postExpenses at h ⊢
  by_cases ha : requireAuth sess = true
  swap
  · simp [ha, unauthorized] at h
  by_cases hv : invalidExpense b = true
  · simp [ha, hv, validationError] at h
  simp only [ha, hv, Bool.not_true, Bool.false_eq_true, ↓reduceIte] at h ⊢
  cases hi : db.insertExpense clk.sqlNow (bindText b.date) (bindText b.category)
      (bindText b.item_name.orEmpty) (bindText b.store.orEmpty) (jsParseInt b.amount) with
  | error e => rw [hi] at h; simp at h
  | ok res =>
    obtain ⟨newId, db'⟩ := res
    obtain ⟨hn, d, c, a, -, -, -, hrows⟩ := insertExpense_ok _ _ _ _ _ _ _ _ _ hi
    have hlt := nextRowid_gt db newId hn
    refine ⟨newId, _, Expense.mk newId d c (bindText b.item_name.orEmpty)
      (bindText b.store.orEmpty) a clk.sqlNow clk.sqlNow,
      db'.expenses.insertionSort listOrder, rfl, rfl, rfl, ?_, ?_, ?_, ?_, ?_⟩
    · simp [getExpenses, ha, Db.selectExpenses]
    · rw [hrows]
      exact (List.perm_insertionSort _ _).trans (List.perm_append_comm.trans (by simp))
    · rw [(List.perm_insertionSort listOrder db'.expenses).countP_eq, hrows,
        List.countP_append]
      have h0 : List.countP (fun r => decide (r.id = newId)) db.expenses = 0 := by
        rw [List.countP_eq_zero]
        intro r hr
        have := hlt r hr
        simp
        omega
      simp [h0]
    · intro r hr
      rw [List.mem_insertionSort, hrows]
      exact List.mem_append_left _ hr
    · exact @List.sorted_insertionSort _ listOrder _ ⟨listOrder_total⟩ ⟨listOrder_trans⟩ _

/-- C6 at a create request on the sample database. -/
theorem C6_create_then_list_witness :
    (postExpenses sampleSession sampleClock
      { date := .str "2024-03-20", category := .str "food", item_name := .undefined,
        store := .undefined, amount := .num 1200 } sampleDb).1.status = 200 ∧
    ∃ (newId : Int) (e : ExpenseJson) (row : Expense) (l : List Expense),
      (postExpenses sampleSession sampleClock
        { date := .str "2024-03-20", category := .str "food", item_name := .undefined,
          store := .undefined, amount := .num 1200 } sampleDb).1.body = .expense e ∧
      e.id = some newId ∧ row.id = newId ∧
      getExpenses sampleSession none none (postExpenses sampleSession sampleClock
        { date := .str "2024-03-20", category := .str "food", item_name := .undefined,
          store := .undefined, amount := .num 1200 } sampleDb).2 =
        { status := 200, body := .rows l } ∧
      l.Perm (row :: sampleDb.expenses) ∧
      l.countP (fun r => r.id = newId) = 1 ∧
      (∀ r ∈ sampleDb.expenses, r ∈ l) ∧
      l.Sorted listOrder :=
  ⟨by decide, C6_create_then_list sampleSession sampleClock _ sampleDb (by decide)⟩

/-! ## Update and delete -/

theorem idMatches_of_matches (id : String) (a b : Int) (h : idMatches id a = true) :
    idMatches id b = decide (b = a) := by
  unfold idMatches at *
  have h1 : sqlTextToInt id = some a := by simpa using h
  rw [h1]
  by_cases hab : b = a
  · simp [hab]
  · have : ¬ a = b := fun e => hab e.symm
    simp [hab, this]

theorem updateExpense_no_match (db : Db) (now : String) (date category item store : Option String)
    (amount : Option Int) (id : String) (h : ∀ r ∈ db.expenses, idMatches id r.id = false) :
    db.updateExpense now date category item store amount id = .ok (0, db) := by
  have hc : db.expenses.countP (fun r => idMatches id r.id) = 0 := by
    rw [List.countP_eq_zero]
    intro r hr
    simp [h r hr]
  simp [Db.updateExpense, hc]

/-- C7: an authenticated update request that passes the validation and whose id
matches no row is answered 404, and the database it leaves is the database it
found: every row with every field, `updated_at` included. -/
theorem C7_update_unknown_id_is_404 (sess : Session) (ha : sess.authenticated = true)
    (clk : Clock) (id : String) (b : ExpenseBody) (db : Db)
    (hv : invalidExpense b = false)
    (hid : ∀ r ∈ db.expenses, idMatches id r.id = false) :
    putExpenses sess clk id b db =
      ({ status := 404, body := .error "データが見つかりません" }, db) := by
  simp [putExpenses, requireAuth, ha, hv, updateExpense_no_match _ _ _ _ _ _ _ _ hid]

/-- C7 at the id 3 on the sample database, which holds the ids 1 and 2. -/
theorem C7_update_unknown_id_is_404_witness :
    sampleSession.authenticated = true ∧
    invalidExpense
      { date := .str "2024-03-01", category := .str "food", item_name := .undefined,
        store := .undefined, amount := .num 1200 } = false ∧
    (∀ r ∈ sampleDb.expenses, idMatches "3" r.id = false) ∧
    putExpenses sampleSession sampleClock "3"
      { date := .str "2024-03-01", category := .str "food", item_name := .undefined,
        store := .undefined, amount := .num 1200 } sampleDb =
      ({ status := 404, body := .error "データが見つかりません" }, sampleDb) :=
  ⟨rfl, by decide, by decide,
   C7_update_unknown_id_is_404 sampleSession rfl sampleClock "3" _ sampleDb
     (by decide) (by decide)⟩

theorem deleteExpenses_no_match (sess : Session) (ha : sess.authenticated = true)
    (id : String) (db : Db) (h : ∀ r ∈ db.expenses, idMatches id r.id = false) :
    deleteExpenses sess id db =
      ({ status := 404, body := .error "データが見つかりません" }, db) := by
  have hc : db.expenses.countP (fun r => idMatches id r.id) = 0 := by
    rw [List.countP_eq_zero]
    intro r hr
    simp [h r hr]
  have hfil : db.expenses.filter (fun r => !idMatches id r.id) = db.expenses := by
    rw [List.filter_eq_self]
    intro r hr
    simp [h r hr]
  unfold deleteExpenses Db.deleteExpense
  rw [hc, hfil]
  simp [requireAuth, ha]

/-- C8: when the id matches a row, the first delete is answered 200 and leaves
the table without the rows of that id and with every other row as it was, in
order (the one row, as ids are unique in the table: the table is then the old one
with that row erased); the other table is untouched. A second delete of the same
id is answered 404 and changes nothing. -/
theorem C8_delete_then_delete (sess : Session) (ha : sess.authenticated = true)
    (id : String) (db : Db) (r : Expense) (hr : r ∈ db.expenses)
    (hm : idMatches id r.id = true) :
    (deleteExpenses sess id db).1 = { status := 200, body := .success "データを削除しました" } ∧
    (deleteExpenses sess id db).2.expenses = db.expenses.filter (fun x => decide (x.id ≠ r.id)) ∧
    ((db.expenses.map (fun x => x.id)).Nodup →
      (deleteExpenses sess id db).2.expenses = db.expenses.erase r) ∧
    (deleteExpenses sess id db).2.users = db.users ∧
    deleteExpenses sess id (deleteExpenses sess id db).2 =
      ({ status := 404, body := .error "データが見つかりません" }, (deleteExpenses sess id db).2) := by
  have hf : (fun x : Expense => !idMatches id x.id) = (fun x => decide (x.id ≠ r.id)) := by
    funext x
    rw [idMatches_of_matches id r.id x.id hm]
    simp
  have hc : db.expenses.countP (fun x => idMatches id x.id) ≠ 0 := by
    intro h0
    rw [List.countP_eq_zero] at h0
    exact h0 r hr hm
  have h1 : deleteExpenses sess id db =
      ({ status := 200, body := .success "データを削除しました" },
       { db with expenses := db.expenses.filter (fun x => decide (x.id ≠ r.id)) }) := by
    simp [deleteExpenses, requireAuth, ha, Db.deleteExpense, hc, hf]
  rw [h1]
  refine ⟨rfl, rfl, ?_, rfl, ?_⟩
  · intro hnd
    have hnd' : db.expenses.Nodup := List.Nodup.of_map _ hnd
    rw [List.Nodup.erase_eq_filter hnd' r]
    apply List.filter_congr
    intro x hx
    have hiff : x.id = r.id ↔ x = r :=
      ⟨fun e => List.inj_on_of_nodup_map hnd hx hr e, fun e => by rw [e]⟩
    by_cases hxr : x = r
    · simp [hxr]
    · have : ¬ x.id = r.id := fun e => hxr (hiff.mp e)
      simp [hxr, this]
  · apply deleteExpenses_no_match sess ha
    intro x hx
    rw [idMatches_of_matches id r.id x.id hm]
    simpa using (List.mem_filter.mp hx).2

/-- C8 at the id 1 on the sample database. -/
theorem C8_delete_then_delete_witness :
    sampleSession.authenticated = true ∧
    (sampleDb.expenses.map (fun x => x.id)).Nodup ∧
    (deleteExpenses sampleSession "1" sampleDb).1 =
      { status := 200, body := .success "データを削除しました" } ∧
    (deleteExpenses sampleSession "1" sampleDb).2.expenses = sampleDb.expenses.drop 1 ∧
    deleteExpenses sampleSession "1" (deleteExpenses sampleSession "1" sampleDb).2 =
      ({ status := 404, body := .error "データが見つかりません" },
       (deleteExpenses sampleSession "1" sampleDb).2) :=
  have h := C8_delete_then_delete sampleSession rfl "1" sampleDb
    (sampleDb.expenses.get ⟨0, by decide⟩) (by decide) (by decide)
  ⟨rfl, by decide, h.1, by decide, h.2.2.2.2⟩

theorem rewriteRow_id (now : String) (d c : String) (item store : Option String) (a : Int)
    (id : String) (r : Expense) : (rewriteRow now d c item store a id r).id = r.id := by
  unfold rewriteRow
  split <;> rfl

theorem updateExpense_some (db : Db) (now : String) (d c : String) (item store : Option String)
    (a : Int) (id : String)
    (hc : db.expenses.countP (fun r => idMatches id r.id) ≠ 0) :
    db.updateExpense now (some d) (some c) item store (some a) id =
      .ok (db.expenses.countP (fun r => idMatches id r.id),
           { db with expenses := db.expenses.map (rewriteRow now d c item store a id) }) := by
  simp only [Db.updateExpense, hc, ↓reduceIte]

theorem updateExpense_null_amount (db : Db) (now : String) (d c : String)
    (item store : Option String) (id : String)
    (hc : db.expenses.countP (fun r => idMatches id r.id) ≠ 0) :
    db.updateExpense now (some d) (some c) item store none id = .error .notNull := by
  simp [Db.updateExpense, hc]

theorem bindText_of_truthy (v : JsVal) (h : v.truthy = true) : ∃ t, bindText v = some t := by
  cases v with
  | undefined => simp [JsVal.truthy] at h
  | null => simp [JsVal.truthy] at h
  | bool b => exact ⟨if b then "1" else "0", by simp [bindText]⟩
  | num n =>
    by_cases hn : -2147483648 ≤ n ∧ n ≤ 2147483647
    · exact ⟨toString n, by simp [bindText, hn]⟩
    · exact ⟨toString n ++ ".0", by simp only [bindText, hn, if_false]⟩
  | str s => exact ⟨s, by simp [bindText]⟩

/-- C10 as stated fails where `parseInt(amount)` is `NaN`: the body with
`amount: "abc"` passes the validation (`"abc"` is truthy and `"abc" <= 0` is
false), the statement then fails on the `NOT NULL` column, and both calls on the
existing id 1 are answered 500 with an error body: neither returns an id, date,
category, item_name, store or amount. The table is left as it was. -/
theorem C10_unparsable_amount_returns_no_record :
    invalidExpense
      { date := .str "2024-03-02", category := .str "food", item_name := .str "bread",
        store := .undefined, amount := .str "abc" } = false ∧
    (∃ r ∈ sampleDb.expenses, idMatches "1" r.id = true) ∧
    jsParseInt (.str "abc") = none ∧
    putExpenses sampleSession sampleClock "1"
      { date := .str "2024-03-02", category := .str "food", item_name := .str "bread",
        store := .undefined, amount := .str "abc" } sampleDb =
      ({ status := 500, body := .error "データ更新エラー" }, sampleDb) ∧
    putExpenses sampleSession sampleClock "1"
      { date := .str "2024-03-02", category := .str "food", item_name := .str "bread",
        store := .undefined, amount := .str "abc" }
      (putExpenses sampleSession sampleClock "1"
        { date := .str "2024-03-02", category := .str "food", item_name := .str "bread",
          store := .undefined, amount := .str "abc" } sampleDb).2 =
      ({ status := 500, body := .error "データ更新エラー" }, sampleDb) := by
  decide

/-- C10, amended: an authenticated update request that passes the validation, on
an id that matches a row, applied twice. The first call keeps the id and
created_at of every row and leaves the rows of other ids as they were; the second
call leaves every row as the first call left it except for updated_at of the rows
of that id; the other table and the id sequence are untouched. Both calls are
answered with the same status; when `parseInt(amount)` is a number both are
answered 200 and both responses carry the same id, date, category, item_name,
store and amount. -/
theorem C10_update_twice (sess : Session) (ha : sess.authenticated = true)
    (clk1 clk2 : Clock) (id : String) (b : ExpenseBody) (db : Db) (r : Expense)
    (hv : invalidExpense b = false) (hr : r ∈ db.expenses) (hm : idMatches id r.id = true) :
    List.Forall₂ (fun x y => y.id = x.id ∧ y.created_at = x.created_at ∧ (x.id ≠ r.id → y = x))
      db.expenses (putExpenses sess clk1 id b db).2.expenses ∧
    List.Forall₂ (fun x y => y = { x with updated_at := y.updated_at } ∧ (x.id ≠ r.id → y = x))
      (putExpenses sess clk1 id b db).2.expenses
      (putExpenses sess clk2 id b (putExpenses sess clk1 id b db).2).2.expenses ∧
    (putExpenses sess clk2 id b (putExpenses sess clk1 id b db).2).2.users = db.users ∧
    (putExpenses sess clk2 id b (putExpenses sess clk1 id b db).2).2.seq = db.seq ∧
    (putExpenses sess clk2 id b (putExpenses sess clk1 id b db).2).1.status =
      (putExpenses sess clk1 id b db).1.status ∧
    ((jsParseInt b.amount).isSome = true →
      ∃ e1 e2,
        (putExpenses sess clk1 id b db).1 = { status := 200, body := .expense e1 } ∧
        (putExpenses sess clk2 id b (putExpenses sess clk1 id b db).2).1 =
          { status := 200, body := .expense e2 } ∧
        e2.id = e1.id ∧ e2.date = e1.date ∧ e2.category = e1.category ∧
        e2.item_name = e1.item_name ∧ e2.store = e1.store ∧ e2.amount = e1.amount) := by
  have hv' := hv
  simp only [invalidExpense, Bool.or_eq_false_iff, Bool.not_eq_false'] at hv'
  obtain ⟨⟨⟨hd, hc⟩, -⟩, -⟩ := hv'
  obtain ⟨d, hd⟩ := bindText_of_truthy _ hd
  obtain ⟨c, hc⟩ := bindText_of_truthy _ hc
  have hcnt : db.expenses.countP (fun x => idMatches id x.id) ≠ 0 := by
    intro h0
    rw [List.countP_eq_zero] at h0
    exact h0 r hr hm
  cases hamt : jsParseInt b.amount with
  | none =>
    have h1 : putExpenses sess clk1 id b db =
        ({ status := 500, body := .error "データ更新エラー" }, db) := by
      simp [putExpenses, requireAuth, ha, hv, hd, hc, hamt, updateExpense_null_amount _ _ _ _ _ _ _ hcnt]
    have h2 : putExpenses sess clk2 id b db =
        ({ status := 500, body := .error "データ更新エラー" }, db) := by
      simp [putExpenses, requireAuth, ha, hv, hd, hc, hamt, updateExpense_null_amount _ _ _ _ _ _ _ hcnt]
    rw [h1, h2]
    refine ⟨?_, ?_, rfl, rfl, rfl, ?_⟩
    · exact List.forall₂_same.mpr (fun x _ => ⟨rfl, rfl, fun _ => rfl⟩)
    · exact List.forall₂_same.mpr (fun x _ => ⟨rfl, fun _ => rfl⟩)
    · intro h; simp at h
  | some a =>
    have hcnt' : (db.expenses.map (rewriteRow clk1.sqlNow d c (bindText b.item_name.orEmpty)
        (bindText b.store.orEmpty) a id)).countP (fun x => idMatches id x.id) ≠ 0 := by
      intro h0
      rw [List.countP_eq_zero] at h0
      have := h0 _ (List.mem_map_of_mem _ hr)
      rw [rewriteRow_id] at this
      exact this hm
    have h1 : putExpenses sess clk1 id b db =
        ({ status := 200,
           body := .expense
             { id := jsParseInt (.str id), date := b.date, category := b.category,
               item_name := b.item_name.orEmpty, store := b.store.orEmpty,
               amount := some a, created_at := none, updated_at := clk1.iso1 } },
         { db with expenses := db.expenses.map (rewriteRow clk1.sqlNow d c
             (bindText b.item_name.orEmpty) (bindText b.store.orEmpty) a id) }) := by
      simp [putExpenses, requireAuth, ha, hv, hd, hc, hamt, updateExpense_some _ _ _ _ _ _ _ _ hcnt,
        hcnt]
    rw [h1]
    have h2 : putExpenses sess clk2 id b
        { db with expenses := db.expenses.map (rewriteRow clk1.sqlNow d c
             (bindText b.item_name.orEmpty) (bindText b.store.orEmpty) a id) } =
        ({ status := 200,
           body := .expense
             { id := jsParseInt (.str id), date := b.date, category := b.category,
               item_name := b.item_name.orEmpty, store := b.store.orEmpty,
               amount := some a, created_at := none, updated_at := clk2.iso1 } },
         { db with expenses :=
             (List.map (rewriteRow clk2.sqlNow d c
               (bindText b.item_name.orEmpty) (bindText b.store.orEmpty) a id)
               (db.expenses.map (rewriteRow clk1.sqlNow d c
                 (bindText b.item_name.orEmpty) (bindText b.store.orEmpty) a id))) }) := by
      have hu := updateExpense_some
        { db with expenses := db.expenses.map (rewriteRow clk1.sqlNow d c
             (bindText b.item_name.orEmpty) (bindText b.store.orEmpty) a id) }
        clk2.sqlNow d c (bindText b.item_name.orEmpty) (bindText b.store.orEmpty) a id hcnt'
      simp only [putExpenses, requireAuth, ha, hv, hd, hc, hamt, hu, Bool.not_true,
        Bool.false_eq_true, ↓reduceIte, hcnt']
    rw [h2]
    refine ⟨?_, ?_, rfl, rfl, rfl, ?_⟩
    · rw [List.forall₂_map_right_iff, List.forall₂_same]
      intro x _
      refine ⟨rewriteRow_id _ _ _ _ _ _ _ _, ?_, ?_⟩
      · unfold rewriteRow; split <;> rfl
      · intro hne
        have : idMatches id x.id = false := by
          rw [idMatches_of_matches id r.id x.id hm]; simpa using hne
        simp [rewriteRow, this]
    · rw [List.forall₂_map_right_iff, List.forall₂_same]
      intro x hx
      obtain ⟨x0, -, rfl⟩ := List.mem_map.mp hx
      by_cases hxm : idMatches id x0.id = true
      · have hne : ¬ x0.id ≠ r.id := by
          rw [idMatches_of_matches id r.id x0.id hm] at hxm
          simpa using hxm
        simp [rewriteRow, hxm, hne]
      · simp [rewriteRow, hxm]
    · intro _
      exact ⟨_, _, rfl, rfl, rfl, rfl, rfl, rfl, rfl, rfl⟩

/-- C10 amended, at the id 1 on the sample database with an amount that parses. -/
theorem C10_update_twice_witness :
    sampleSession.authenticated = true ∧
    invalidExpense
      { date := .str "2024-03-02", category := .str "food", item_name := .str "bread",
        store := .undefined, amount := .num 300 } = false ∧
    (jsParseInt (.num 300)).isSome = true ∧
    ∃ e1 e2,
      (putExpenses sampleSession sampleClock "1"
        { date := .str "2024-03-02", category := .str "food", item_name := .str "bread",
          store := .undefined, amount := .num 300 } sampleDb).1 =
        { status := 200, body := .expense e1 } ∧
      (putExpenses sampleSession sampleClock "1"
        { date := .str "2024-03-02", category := .str "food", item_name := .str "bread",
          store := .undefined, amount := .num 300 }
        (putExpenses sampleSession sampleClock "1"
          { date := .str "2024-03-02", category := .str "food", item_name := .str "bread",
            store := .undefined, amount := .num 300 } sampleDb).2).1 =
        { status := 200, body := .expense e2 } ∧
      e2.id = e1.id ∧ e2.date = e1.date ∧ e2.category = e1.category ∧
      e2.item_name = e1.item_name ∧ e2.store = e1.store ∧ e2.amount = e1.amount :=
  ⟨rfl, by decide, by decide,
   (C10_update_twice sampleSession rfl sampleClock sampleClock "1"
      { date := .str "2024-03-02", category := .str "food", item_name := .str "bread",
        store := .undefined, amount := .num 300 } sampleDb
      (sampleDb.expenses.get ⟨0, by decide⟩) (by decide) (by decide) (by decide)).2.2.2.2.2
     (by decide)⟩

/-! ## The login rate limit -/

theorem count_in_window (opts : RateLimitOptions) (store : RateStore) (client : String)
    (now : Nat) (w : Window) (hs : store client = some w) (ht : now < w.resetTime) :
    opts.count store client now = { hits := w.hits + 1, resetTime := w.resetTime } := by
  have : ¬ w.resetTime ≤ now := by omega
  simp [RateLimitOptions.count, hs, this]

theorem record_self (opts : RateLimitOptions) (store : RateStore) (client : String) (now : Nat) :
    opts.record store client now client = some (opts.count store client now) := by
  simp [RateLimitOptions.record]

theorem loginRoute_store (compare : String → String → Bool) (store : RateStore) (client : String)
    (now : Nat) (password : JsVal) (sess : Session) (db : Db) :
    (loginRoute compare store client now password sess db).2.2 =
      loginLimiter.record store client now := by
  unfold loginRoute
  split <;> rfl

theorem runLogins_counts (compare : String → String → Bool) (client : String) (db : Db)
    (qs : List LoginRequest) :
    ∀ (sess : Session) (store : RateStore) (w : Window), store client = some w →
      (∀ q ∈ qs, q.time < w.resetTime) →
      (runLogins compare client db qs sess store).2.2 client =
        some { hits := w.hits + qs.length, resetTime := w.resetTime } := by
  induction qs with
  | nil => intro sess store w hs _; simpa [runLogins] using hs
  | cons q qs ih =>
    intro sess store w hs hq
    have hq0 : q.time < w.resetTime := hq q (List.mem_cons_self _ _)
    have hstore : (loginRoute compare store client q.time q.password sess db).2.2 client =
        some { hits := w.hits + 1, resetTime := w.resetTime } := by
      rw [loginRoute_store, record_self, count_in_window _ _ _ _ w hs hq0]
    have := ih (loginRoute compare store client q.time q.password sess db).2.1
      (loginRoute compare store client q.time q.password sess db).2.2
      { hits := w.hits + 1, resetTime := w.resetTime } hstore
      (fun x hx => hq x (List.mem_cons_of_mem _ hx))
    simp only [runLogins, this, List.length_cons]
    congr 2
    omega

theorem runLogins_append (compare : String → String → Bool) (client : String) (db : Db)
    (qs : List LoginRequest) (q : LoginRequest) :
    ∀ (sess : Session) (store : RateStore),
      runLogins compare client db (qs ++ [q]) sess store =
        ((runLogins compare client db qs sess store).1 ++
          [(loginRoute compare (runLogins compare client db qs sess store).2.2 client
              q.time q.password (runLogins compare client db qs sess store).2.1 db).1],
         (loginRoute compare (runLogins compare client db qs sess store).2.2 client
              q.time q.password (runLogins compare client db qs sess store).2.1 db).2.1,
         (loginRoute compare (runLogins compare client db qs sess store).2.2 client
              q.time q.password (runLogins compare client db qs sess store).2.1 db).2.2) := by
  induction qs with
  | nil => intro sess store; simp [runLogins]
  | cons x xs ih =>
    intro sess store
    rw [List.cons_append]
    simp only [runLogins]
    rw [ih]
    simp only [List.cons_append]

/-- C9: a client sends login requests; the first is counted in a window of the
limiter and all the following ones arrive before that window ends. Once five
requests have been made (the first and at least four more), the next request,
whatever password it carries, is answered 429 and leaves the session exactly as
the earlier requests left it; the responses to the earlier requests are not
changed by it. -/
theorem C9_sixth_login_is_429 (compare : String → String → Bool) (client : String) (db : Db)
    (sess : Session) (store : RateStore) (q0 : LoginRequest) (rest : List LoginRequest)
    (q : LoginRequest) (hlen : 4 ≤ rest.length)
    (hwin : ∀ x ∈ rest ++ [q], x.time < (loginLimiter.count store client q0.time).resetTime) :
    (tooManyRequests loginLimiter).status = 429 ∧
    (runLogins compare client db (q0 :: rest ++ [q]) sess store).1 =
      (runLogins compare client db (q0 :: rest) sess store).1 ++
        [some (tooManyRequests loginLimiter)] ∧
    (runLogins compare client db (q0 :: rest ++ [q]) sess store).2.1 =
      (runLogins compare client db (q0 :: rest) sess store).2.1 := by
  have hstore : (runLogins compare client db (q0 :: rest) sess store).2.2 client =
      some { hits := (loginLimiter.count store client q0.time).hits + rest.length,
             resetTime := (loginLimiter.count store client q0.time).resetTime } := by
    have h0 : (loginRoute compare store client q0.time q0.password sess db).2.2 client =
        some (loginLimiter.count store client q0.time) := by
      rw [loginRoute_store, record_self]
    have := runLogins_counts compare client db rest
      (loginRoute compare store client q0.time q0.password sess db).2.1
      (loginRoute compare store client q0.time q0.password sess db).2.2
      (loginLimiter.count store client q0.time) h0
      (fun x hx => hwin x (List.mem_append_left _ hx))
    simpa [runLogins] using this
  have hpos : 1 ≤ (loginLimiter.count store client q0.time).hits := by
    unfold RateLimitOptions.count
    split
    · simp
    · split <;> simp
  have hq : q.time < (loginLimiter.count store client q0.time).resetTime :=
    hwin q (List.mem_append_right _ (List.mem_singleton_self q))
  have hadm : loginLimiter.admits (runLogins compare client db (q0 :: rest) sess store).2.2
      client q.time = false := by
    unfold RateLimitOptions.admits
    rw [count_in_window _ _ _ _ _ hstore hq]
    have hmax : loginLimiter.max = 5 := rfl
    rw [hmax]
    simp only [decide_eq_false_iff_not, not_le]
    omega
  have hroute : loginRoute compare (runLogins compare client db (q0 :: rest) sess store).2.2
      client q.time q.password (runLogins compare client db (q0 :: rest) sess store).2.1 db =
      (some (tooManyRequests loginLimiter),
       (runLogins compare client db (q0 :: rest) sess store).2.1,
       loginLimiter.record (runLogins compare client db (q0 :: rest) sess store).2.2
         client q.time) := by
    unfold loginRoute
    rw [hadm]
    simp
  have happ := runLogins_append compare client db (q0 :: rest) q sess store
  rw [hroute] at happ
  refine ⟨rfl, ?_, ?_⟩
  · have := congrArg (fun t => t.1) happ
    simpa using this
  · have := congrArg (fun t => t.2.1) happ
    simpa using this

/-- C9 on the sample database: after five wrong passwords within a minute the
right password is answered 429 and the session stays unauthenticated. -/
theorem C9_sixth_login_is_429_witness :
    (4 ≤ sampleAttempts.length) ∧
    (∀ x ∈ sampleAttempts ++ [{ time := 60000, password := .str "r246" }],
      x.time < (loginLimiter.count emptyStore "10.0.0.1" 1000).resetTime) ∧
    (runLogins sampleCompare "10.0.0.1" sampleDb
      ({ time := 1000, password := .str "a" } :: sampleAttempts ++
        [{ time := 60000, password := .str "r246" }]) Session.fresh emptyStore).1 =
    (runLogins sampleCompare "10.0.0.1" sampleDb
      ({ time := 1000, password := .str "a" } :: sampleAttempts) Session.fresh emptyStore).1 ++
        [some (tooManyRequests loginLimiter)] ∧
    (runLogins sampleCompare "10.0.0.1" sampleDb
      ({ time := 1000, password := .str "a" } :: sampleAttempts ++
        [{ time := 60000, password := .str "r246" }]) Session.fresh emptyStore).2.1 =
    (runLogins sampleCompare "10.0.0.1" sampleDb
      ({ time := 1000, password := .str "a" } :: sampleAttempts) Session.fresh emptyStore).2.1 :=
  ⟨by decide, by decide,
   (C9_sixth_login_is_429 sampleCompare "10.0.0.1" sampleDb Session.fresh emptyStore
      { time := 1000, password := .str "a" } sampleAttempts
      { time := 60000, password := .str "r246" } (by decide) (by decide)).2⟩

end Kakeibo
